import Mathlib

/-!
Verification of the product-catalog CRUD service
(`service/routes.py` plus the Product entity layer it calls).

The route layer is translated from `src/service/routes.py`.  The entity
layer (`service/models.py`) is not part of the given sources — only its
tests and callers are — so its operations are modelled from the
specification, as marked in each doc comment.
-/

/-- The fixed category enumeration (spec §3; member names are uppercase,
as witnessed by `category.upper()` in `routes.py`). -/
inductive Category where
  | UNKNOWN
  | CLOTHS
  | FOOD
  | HOUSEWARES
  | AUTOMOTIVE
  | TOOLS
deriving DecidableEq, Repr

/-- The enumeration member whose name is exactly the given string
(models Python attribute lookup `getattr(Category, s)`). -/
def Category.fromName (s : String) : Option Category :=
  match s with
  | "UNKNOWN" => some .UNKNOWN
  | "CLOTHS" => some .CLOTHS
  | "FOOD" => some .FOOD
  | "HOUSEWARES" => some .HOUSEWARES
  | "AUTOMOTIVE" => some .AUTOMOTIVE
  | "TOOLS" => some .TOOLS
  | _ => none

/-- The name string of an enumeration member (Python `category.name`). -/
def Category.name : Category → String
  | .UNKNOWN => "UNKNOWN"
  | .CLOTHS => "CLOTHS"
  | .FOOD => "FOOD"
  | .HOUSEWARES => "HOUSEWARES"
  | .AUTOMOTIVE => "AUTOMOTIVE"
  | .TOOLS => "TOOLS"

/-- JSON-ish values appearing in request and response payloads.
Numbers carry exact decimal semantics (spec §3: prices are decimals,
not floating point), so they are modelled as rationals. -/
inductive JsonVal where
  | str (s : String)
  | num (q : ℚ)
  | bool (b : Bool)
  | null
deriving DecidableEq, Repr

/-- A JSON object: an association list from keys to values. -/
abbrev Payload := List (String × JsonVal)

/-- ASCII lowercase of a character (models Python `str.lower` on the
ASCII strings this service compares). -/
def lowerChar (c : Char) : Char :=
  if 'A' ≤ c ∧ c ≤ 'Z' then Char.ofNat (c.toNat + 32) else c

/-- ASCII lowercase of a string (Python `s.lower()`). -/
def lower (s : String) : String := ⟨s.data.map lowerChar⟩

/-- ASCII uppercase of a character (Python `str.upper`). -/
def upperChar (c : Char) : Char :=
  if 'a' ≤ c ∧ c ≤ 'z' then Char.ofNat (c.toNat - 32) else c

/-- ASCII uppercase of a string (Python `s.upper()`). -/
def upper (s : String) : String := ⟨s.data.map upperChar⟩

/-- `str_to_bool` from `routes.py`: lowercases the string and looks it
up in the fixed boolean map; an unknown key raises
`ValueError(f"Cannot convert {str_value} to a boolean")`. -/
def str_to_bool (str_value : String) : Except String Bool :=
  let l := lower str_value
  if l = "true" ∨ l = "1" ∨ l = "t" ∨ l = "y" ∨ l = "yes" then
    .ok true
  else if l = "false" ∨ l = "0" ∨ l = "f" ∨ l = "n" ∨ l = "no" then
    .ok false
  else
    .error ("Cannot convert " ++ str_value ++ " to a boolean")

/-- Numeric value of a digit list (most significant first). -/
def digitsVal (cs : List Char) : Nat :=
  cs.foldl (fun a c => a * 10 + (c.toNat - 48)) 0

/-- Plain decimal literal parsing (Python `Decimal(s)` on the literals
this service handles): optional sign, digits, optional single fraction
part, at least one digit. -/
def parseDecimal (s : String) : Option ℚ :=
  let signed : Bool × List Char :=
    match s.data with
    | '-' :: rest => (true, rest)
    | '+' :: rest => (false, rest)
    | cs => (false, cs)
  let intPart := signed.2.takeWhile (fun c => c ≠ '.')
  let rest := signed.2.dropWhile (fun c => c ≠ '.')
  let fracPart := rest.drop 1
  if rest.length ≤ 1 ∧ intPart.all Char.isDigit ∧ fracPart.all Char.isDigit ∧
      (intPart ≠ [] ∨ fracPart ≠ []) then
    let v : ℚ := (digitsVal intPart : ℚ) + (digitsVal fracPart : ℚ) / ((10 : ℚ) ^ fracPart.length)
    some (if signed.1 then -v else v)
  else none

/-- Modelled from the spec (missing `service/models.py`): the decimal
value denoted by a JSON price field — "string or numeric input
accepted", a string is coerced to a decimal (spec §3, §4.1). -/
def priceVal : JsonVal → Option ℚ
  | .num q => some q
  | .str s => parseDecimal s
  | _ => none

/-- The Product entity (spec §3): `id` is absent until first persisted;
`category` defaults to the designated UNKNOWN value. -/
structure Product where
  id : Option Nat := none
  name : String := ""
  description : String := ""
  price : ℚ := 0
  available : Bool := false
  category : Category := .UNKNOWN
deriving DecidableEq, Repr

/-- The persistent store: the stored products and the next
server-assigned identifier (ids start at 1 and are positive). -/
structure DB where
  products : List Product := []
  nextId : Nat := 1
deriving DecidableEq, Repr

/-- Modelled from the spec (missing `service/models.py`):
`serialize()` "produces a mapping with `id`, `name`, `description`,
`price` (as a string or decimal-preserving representation), `available`,
`category` (as the enumeration's name string)" (spec §4.1); the
decimal-preserving representation is chosen for `price`. -/
def Product.serialize (p : Product) : Payload :=
  [("id", match p.id with | some i => .num i | none => .null),
   ("name", .str p.name),
   ("description", .str p.description),
   ("price", .num p.price),
   ("available", .bool p.available),
   ("category", .str p.category.name)]

/-- Modelled from the spec (missing `service/models.py`):
`deserialize(payload)` "accepts a mapping with keys name, description,
price, available, category. Populates the entity's fields", failing
with a DataValidationError when `name` is missing or empty, `available`
is present but not a boolean, `category` does not name an enumeration
member (exact uppercase member name, as the `category.upper()` lookup
in `routes.py` shows), `price` cannot be parsed as a non-negative
decimal, or a required key is structurally absent (spec §4.1, §3).
The entity's `id` is not among the populated fields. -/
def Product.deserialize (p : Product) (data : Payload) : Except String Product :=
  match data.lookup "name", data.lookup "description", data.lookup "price",
        data.lookup "available", data.lookup "category" with
  | some (.str n), some (.str d), some pv, some (.bool b), some (.str c) =>
    if n = "" then .error "Invalid product: name is empty" else
    match priceVal pv with
    | some q =>
      if q < 0 then .error "Invalid product: negative price" else
      match Category.fromName c with
      | some cat =>
        .ok { p with name := n, description := d, price := q,
                     available := b, category := cat }
      | none => .error ("Invalid attribute: " ++ c)
    | none => .error "Invalid product: price is not a number"
  | _, _, _, _, _ => .error "Invalid product: missing or mistyped field"

/-- Modelled from the spec (missing `service/models.py`): `all()`
"produces a sequence of every stored Product" (spec §4.1). -/
def DB.all (db : DB) : List Product := db.products

/-- Modelled from the spec (missing `service/models.py`): `find(id)`
"returns the Product with matching id, or a null/absent result if none
exists. Never raises for not-found" (spec §4.1). -/
def DB.find (db : DB) (i : Nat) : Option Product :=
  db.products.find? (fun p => p.id == some i)

/-- Modelled from the spec (missing `service/models.py`):
`find_by_name(name)` "returns all products with exact, case-sensitive
name match" (spec §4.1). -/
def DB.find_by_name (db : DB) (n : String) : List Product :=
  db.products.filter (fun p => p.name == n)

/-- Modelled from the spec (missing `service/models.py`):
`find_by_category(category)` "returns all products whose category
equals the given enumeration value" (spec §4.1). -/
def DB.find_by_category (db : DB) (c : Category) : List Product :=
  db.products.filter (fun p => p.category == c)

/-- Modelled from the spec (missing `service/models.py`):
`find_by_availability(available)` "returns all products whose
`available` boolean matches" (spec §4.1). -/
def DB.find_by_availability (db : DB) (b : Bool) : List Product :=
  db.products.filter (fun p => p.available == b)

/-- Modelled from the spec (missing `service/models.py`): `create()`
"inserts the entity as a new row; assigns a fresh unique id to the
in-memory entity" (spec §4.1). -/
def Product.create (p : Product) (db : DB) : Product × DB :=
  let q := { p with id := some db.nextId }
  (q, { products := db.products ++ [q], nextId := db.nextId + 1 })

/-- Python text of an optional id (`None` when unset). -/
def idText : Option Nat → String
  | none => "None"
  | some n => toString n

/-- Modelled from the spec (missing `service/models.py`): `update()`
"requires `id` to be a positive, previously-assigned identifier; fails
with DataValidationError (message includes the empty/invalid id) if
`id` is falsy (e.g. zero or unset)"; otherwise "overwrites the stored
row's mutable fields with the entity's current in-memory values"
(spec §4.1).  The error case "leaves the store unmodified" (§8). -/
def Product.update (p : Product) (db : DB) : Except String Unit × DB :=
  if p.id = none ∨ p.id = some 0 then
    (.error ("Update called with empty id field: " ++ idText p.id), db)
  else
    (.ok (), { db with products := db.products.map (fun q => if q.id = p.id then p else q) })

/-- Modelled from the spec (missing `service/models.py`): `delete()`
"removes the row matching `id`. No error if the row does not exist"
(spec §4.1). -/
def Product.delete (p : Product) (db : DB) : DB :=
  { db with products := db.products.filter (fun q => q.id != p.id) }

/-- The body of an HTTP response. -/
inductive Body where
  | empty
  | msg (s : String)
  | obj (fields : Payload)
  | arr (items : List Payload)
deriving DecidableEq, Repr

/-- An HTTP response together with the store state after the request;
`location` is the `Location` header when one is set. -/
structure HttpResult where
  status : Nat
  body : Body
  location : Option String := none
  db : DB
deriving DecidableEq, Repr

/-- `check_content_type` from `routes.py`, specialised to the
`"application/json"` argument both callers pass: an absent or different
`Content-Type` header aborts with 415 and the message
`Content-Type must be application/json`; `none` means the check
passed. -/
def check_content_type (header : Option String) : Option String :=
  match header with
  | none => some "Content-Type must be application/json"
  | some ct =>
    if ct = "application/json" then none
    else some "Content-Type must be application/json"

/-- Python truthiness of `request.args.get(k)`: `None` and the empty
string are falsy. -/
def truthy : Option String → Bool
  | none => false
  | some s => !(s == "")

/-- `list_products` from `routes.py`: a truthy `name` query parameter
selects the name filter; else a truthy `category` is uppercased and
looked up as a `Category` attribute (an unknown name raises an
unhandled AttributeError); else a truthy `available` goes through
`str_to_bool` (an unparseable value raises an unhandled ValueError);
else all products are listed.  Success is 200 with the serialized
list. -/
def list_products (db : DB) (name category available : Option String) :
    Except String HttpResult :=
  if truthy name then
    .ok { status := 200,
          body := .arr ((db.find_by_name (name.getD "")).map Product.serialize),
          db := db }
  else if truthy category then
    match Category.fromName (upper (category.getD "")) with
    | some c =>
      .ok { status := 200,
            body := .arr ((db.find_by_category c).map Product.serialize),
            db := db }
    | none => .error ("AttributeError: " ++ upper (category.getD ""))
  else if truthy available then
    match str_to_bool (available.getD "") with
    | .ok b =>
      .ok { status := 200,
            body := .arr ((db.find_by_availability b).map Product.serialize),
            db := db }
    | .error e => .error e
  else
    .ok { status := 200, body := .arr (db.all.map Product.serialize), db := db }

/-- `get_products` from `routes.py`: 404 with message
`Product Id not found {id}` when `find` returns nothing, else 200 with
the serialized product. -/
def get_products (db : DB) (product_id : Nat) : HttpResult :=
  match db.find product_id with
  | none =>
    { status := 404,
      body := .msg ("Product Id not found " ++ toString product_id), db := db }
  | some p => { status := 200, body := .obj p.serialize, db := db }

/-- `create_products` from `routes.py`: checks the content type first,
then deserializes the posted body into a fresh `Product()`, creates it,
and answers 201 with the serialized product and a `Location` header
pointing at the new resource's read URL. -/
def create_products (db : DB) (contentType : Option String) (data : Payload) :
    Except String HttpResult :=
  match check_content_type contentType with
  | some m => .ok { status := 415, body := .msg m, db := db }
  | none =>
    match Product.deserialize {} data with
    | .error e => .error e
    | .ok prod =>
      let pd := prod.create db
      .ok { status := 201, body := .obj pd.1.serialize,
            location := some ("/products/" ++ idText pd.1.id), db := pd.2 }

/-- `update_products` from `routes.py`: checks the content type first,
then finds the product for the path id (404 with a message naming the
id if absent), deserializes the request body into the found product,
updates it, and answers 200 with the serialized product. -/
def update_products (db : DB) (contentType : Option String) (product_id : Nat)
    (data : Payload) : Except String HttpResult :=
  match check_content_type contentType with
  | some m => .ok { status := 415, body := .msg m, db := db }
  | none =>
    match db.find product_id with
    | none =>
      .ok { status := 404,
            body := .msg ("Product Id not found " ++ toString product_id),
            db := db }
    | some product =>
      match product.deserialize data with
      | .error e => .error e
      | .ok p2 =>
        match p2.update db with
        | (.error e, _) => .error e
        | (.ok _, db2) =>
          .ok { status := 200, body := .obj p2.serialize, db := db2 }

/-- `delete_product` from `routes.py`: finds the product for the path
id; when absent it aborts with 404 and a message naming the id, when
present it deletes the product and answers 204 with an empty body. -/
def delete_product (db : DB) (product_id : Nat) : HttpResult :=
  match db.find product_id with
  | none =>
    { status := 404,
      body := .msg ("Product Id not found " ++ toString product_id), db := db }
  | some product =>
    { status := 204, body := .empty, db := product.delete db }

/-- A concrete stored product used to exercise the theorems. -/
def hat : Product :=
  { id := some 1, name := "Fedora", description := "A red hat",
    price := 12, available := true, category := .CLOTHS }

/-- A concrete store holding `hat` under id 1. -/
def sampleDB : DB := { products := [hat], nextId := 2 }

/-- A payload satisfying the validation rules of spec §3/§4.1: a
non-empty string name, a string description, a price denoting a
non-negative decimal (numeric or string form), a boolean literal
availability, and a recognized category enumeration name. -/
def validPayload (data : Payload) : Prop :=
  (∃ n, data.lookup "name" = some (.str n) ∧ n ≠ "") ∧
  (∃ d, data.lookup "description" = some (.str d)) ∧
  (∃ pv q, data.lookup "price" = some pv ∧ priceVal pv = some q ∧ 0 ≤ q) ∧
  (∃ b, data.lookup "available" = some (.bool b)) ∧
  (∃ c cat, data.lookup "category" = some (.str c) ∧ Category.fromName c = some cat)

/-- A concrete valid creation payload. -/
def samplePayload : Payload :=
  [("name", .str "Fedora"), ("description", .str "A red hat"),
   ("price", .num 12), ("available", .bool true), ("category", .str "CLOTHS")]

/-- The entity product 1 becomes after the rename update below. -/
def trilby : Product :=
  { id := some 1, name := "Trilby", description := "Another hat",
    price := 7, available := false, category := .CLOTHS }

/-- A concrete update payload that also carries a conflicting id. -/
def renamePayload : Payload :=
  [("id", .num 99), ("name", .str "Trilby"), ("description", .str "Another hat"),
   ("price", .num 7), ("available", .bool false), ("category", .str "CLOTHS")]

/-- C4: For every string s, `str_to_bool` returns true when s lowercases
to one of "true","1","t","y","yes", false when s lowercases to one of
"false","0","f","n","no", and raises a value error (whose message names
the offending string) for every other string. -/
theorem str_to_bool_spec (s : String) :
    (lower s = "true" ∨ lower s = "1" ∨ lower s = "t" ∨
       lower s = "y" ∨ lower s = "yes" →
      str_to_bool s = .ok true) ∧
    (lower s = "false" ∨ lower s = "0" ∨ lower s = "f" ∨
       lower s = "n" ∨ lower s = "no" →
      str_to_bool s = .ok false) ∧
    (¬ (lower s = "true" ∨ lower s = "1" ∨ lower s = "t" ∨
          lower s = "y" ∨ lower s = "yes") →
     ¬ (lower s = "false" ∨ lower s = "0" ∨ lower s = "f" ∨
          lower s = "n" ∨ lower s = "no") →
      str_to_bool s = .error ("Cannot convert " ++ s ++ " to a boolean")) := by
  refine ⟨fun h => ?_, fun h => ?_, fun h₁ h₂ => ?_⟩
  · simp only [str_to_bool, if_pos h]
  · by_cases h' : lower s = "true" ∨ lower s = "1" ∨ lower s = "t" ∨
        lower s = "y" ∨ lower s = "yes"
    · rcases h' with h' | h' | h' | h' | h' <;>
        (rcases h with h | h | h | h | h <;> simp_all)
    · simp only [str_to_bool, if_neg h', if_pos h]
  · simp only [str_to_bool, if_neg h₁, if_neg h₂]

/-- Witness for C4 at concrete inputs. -/
theorem str_to_bool_spec_witness :
    str_to_bool "TrUe" = .ok true ∧
    str_to_bool "No" = .ok false ∧
    str_to_bool "maybe" = .error "Cannot convert maybe to a boolean" :=
  ⟨(str_to_bool_spec "TrUe").1 (by decide),
   (str_to_bool_spec "No").2.1 (by decide),
   (str_to_bool_spec "maybe").2.2 (by decide) (by decide)⟩

/-- C1 counterexample: on an empty store, DELETE /products/1 returns
404, not the 204 the claim promises for nonexistent ids. -/
theorem delete_nonexistent_not_204 :
    (delete_product { products := [], nextId := 1 } 1).status = 404 ∧
    (delete_product { products := [], nextId := 1 } 1).status ≠ 204 := by
  constructor <;> decide

/-- C1 amended: DELETE /products/{id} returns 204 with an empty body
when a product with the id exists, deleting it; when no product with
that id exists it returns 404 with a message containing the id, not
204. -/
theorem delete_product_spec (db : DB) (product_id : Nat) :
    (db.find product_id = none →
      delete_product db product_id =
        { status := 404,
          body := .msg ("Product Id not found " ++ toString product_id),
          db := db }) ∧
    (∀ p, db.find product_id = some p →
      delete_product db product_id =
        { status := 204, body := .empty, db := p.delete db }) := by
  constructor
  · intro h; simp [delete_product, h]
  · intro p h; simp [delete_product, h]

/-- Witness for C1 amended: deleting the stored product 1 gives 204
and removes it; the 404 branch is exercised by the counterexample. -/
theorem delete_product_spec_witness :
    delete_product sampleDB 1 =
      { status := 204, body := .empty, db := hat.delete sampleDB } :=
  (delete_product_spec sampleDB 1).2 hat (by decide)

/-- C2: when no product with the requested id is stored, GET and PUT
(the latter with the JSON content type) each return 404 with a message
containing the requested id; when it exists, GET returns 200 with the
serialized product. -/
theorem not_found_mapping (db : DB) (product_id : Nat) (data : Payload) :
    (db.find product_id = none →
      get_products db product_id =
        { status := 404,
          body := .msg ("Product Id not found " ++ toString product_id),
          db := db } ∧
      update_products db (some "application/json") product_id data =
        .ok { status := 404,
              body := .msg ("Product Id not found " ++ toString product_id),
              db := db }) ∧
    (∀ p, db.find product_id = some p →
      get_products db product_id =
        { status := 200, body := .obj p.serialize, db := db }) := by
  refine ⟨fun h => ⟨?_, ?_⟩, fun p h => ?_⟩
  · simp [get_products, h]
  · simp [update_products, check_content_type, h]
  · simp [get_products, h]

/-- Witness for C2 at concrete inputs: id 2 is absent from `sampleDB`
(404 on GET and PUT), id 1 is present (200 on GET). -/
theorem not_found_mapping_witness :
    (get_products sampleDB 2 =
      { status := 404, body := .msg "Product Id not found 2", db := sampleDB } ∧
     update_products sampleDB (some "application/json") 2 [] =
      .ok { status := 404, body := .msg "Product Id not found 2", db := sampleDB }) ∧
    get_products sampleDB 1 =
      { status := 200, body := .obj hat.serialize, db := sampleDB } :=
  ⟨(not_found_mapping sampleDB 2 []).1 (by decide),
   (not_found_mapping sampleDB 1 []).2 hat (by decide)⟩

/-- C5: a POST /products or PUT /products/{id} request whose
Content-Type header is absent or is anything other than exactly
`application/json` gets a 415 response whose body names the required
content type, with the store untouched (the entity layer is never
reached: the result does not depend on the request body). -/
theorem content_type_415 (db : DB) (ct : Option String) (product_id : Nat)
    (data : Payload) (h : ct ≠ some "application/json") :
    create_products db ct data =
      .ok { status := 415, body := .msg "Content-Type must be application/json",
            db := db } ∧
    update_products db ct product_id data =
      .ok { status := 415, body := .msg "Content-Type must be application/json",
            db := db } := by
  have hc : check_content_type ct = some "Content-Type must be application/json" := by
    cases ct with
    | none => rfl
    | some s =>
      have hs : s ≠ "application/json" := fun hs => h (by rw [hs])
      simp [check_content_type, hs]
  exact ⟨by simp [create_products, hc], by simp [update_products, hc]⟩

/-- Witness for C5: a missing header and a non-JSON header both give
415 on both write routes. -/
theorem content_type_415_witness :
    (create_products sampleDB none [] =
      .ok { status := 415, body := .msg "Content-Type must be application/json",
            db := sampleDB } ∧
     update_products sampleDB none 1 [] =
      .ok { status := 415, body := .msg "Content-Type must be application/json",
            db := sampleDB }) ∧
    (create_products sampleDB (some "text/plain") [] =
      .ok { status := 415, body := .msg "Content-Type must be application/json",
            db := sampleDB } ∧
     update_products sampleDB (some "text/plain") 1 [] =
      .ok { status := 415, body := .msg "Content-Type must be application/json",
            db := sampleDB }) :=
  ⟨content_type_415 sampleDB none 1 [] (by decide),
   content_type_415 sampleDB (some "text/plain") 1 [] (by decide)⟩

/-- C6: `update()` on an entity whose id is falsy (unset or 0) fails
with a DataValidationError whose message ends with the text of the
empty/invalid id, and returns the store unmodified. -/
theorem update_empty_id (p : Product) (db : DB)
    (h : p.id = none ∨ p.id = some 0) :
    (p.update db).1 =
      .error ("Update called with empty id field: " ++ idText p.id) ∧
    (p.update db).2 = db := by
  unfold Product.update
  rw [if_pos h]
  exact ⟨rfl, rfl⟩

/-- Witness for C6: updating with id forced to 0 (as in
`test_update_a_product_with_empty_id`) errors and leaves the store
as it was. -/
theorem update_empty_id_witness :
    (Product.update { hat with id := some 0 } sampleDB).1 =
      .error ("Update called with empty id field: " ++ idText (some 0)) ∧
    (Product.update { hat with id := some 0 } sampleDB).2 = sampleDB :=
  update_empty_id { hat with id := some 0 } sampleDB (Or.inr rfl)

/-- C3: at most one of the `name`, `category`, `available` query
parameters is honored, with precedence name first, then category, then
availability; when none is supplied (truthy), the full product list is
returned.  Each branch's 200 body is exactly the corresponding
single-filter result, independent of the later parameters. -/
theorem list_products_precedence (db : DB) (n c a : Option String) :
    (truthy n = true →
      list_products db n c a =
        .ok { status := 200,
              body := .arr ((db.find_by_name (n.getD "")).map Product.serialize),
              db := db }) ∧
    (truthy n = false → truthy c = true →
      ∀ cat, Category.fromName (upper (c.getD "")) = some cat →
        list_products db n c a =
          .ok { status := 200,
                body := .arr ((db.find_by_category cat).map Product.serialize),
                db := db }) ∧
    (truthy n = false → truthy c = false → truthy a = true →
      ∀ b, str_to_bool (a.getD "") = .ok b →
        list_products db n c a =
          .ok { status := 200,
                body := .arr ((db.find_by_availability b).map Product.serialize),
                db := db }) ∧
    (truthy n = false → truthy c = false → truthy a = false →
      list_products db n c a =
        .ok { status := 200, body := .arr (db.all.map Product.serialize),
              db := db }) := by
  refine ⟨fun hn => ?_, fun hn hc cat hcat => ?_,
          fun hn hc ha b hb => ?_, fun hn hc ha => ?_⟩
  · simp [list_products, hn]
  · simp [list_products, hn, hc, hcat]
  · simp [list_products, hn, hc, ha, hb]
  · simp [list_products, hn, hc, ha]

/-- Witness for C3: on `sampleDB`, a name query wins over a category
query, and supplying nothing lists everything. -/
theorem list_products_precedence_witness :
    list_products sampleDB (some "Fedora") (some "food") none =
      .ok { status := 200,
            body := .arr ((sampleDB.find_by_name "Fedora").map Product.serialize),
            db := sampleDB } ∧
    list_products sampleDB none none none =
      .ok { status := 200, body := .arr (sampleDB.all.map Product.serialize),
            db := sampleDB } :=
  ⟨(list_products_precedence sampleDB (some "Fedora") (some "food") none).1 rfl,
   (list_products_precedence sampleDB none none none).2.2.2 rfl rfl rfl⟩

/-- C9: a query parameter supplied with an empty-string value is
treated exactly as an absent parameter by the list route — the filter
is skipped and evaluation falls through to the later parameters. -/
theorem empty_query_param_like_absent (db : DB) (n c a : Option String) :
    list_products db (some "") c a = list_products db none c a ∧
    list_products db n (some "") a = list_products db n none a ∧
    list_products db n c (some "") = list_products db n c none := by
  refine ⟨rfl, ?_, ?_⟩
  · by_cases hn : truthy n = true
    · simp [list_products, hn]
    · simp at hn
      simp [list_products, hn, truthy]
  · by_cases hn : truthy n = true
    · simp [list_products, hn]
    · simp at hn
      by_cases hc : truthy c = true
      · simp [list_products, hn, hc]
      · simp at hc
        simp [list_products, hn, hc, truthy]

/-- A recognized category name is exactly the member's name string. -/
lemma Category.name_fromName {s : String} {cat : Category}
    (h : Category.fromName s = some cat) : cat.name = s := by
  unfold Category.fromName at h
  split at h
  all_goals first
    | exact Option.noConfusion h
    | (injection h with h2; subst h2; rfl)

/-- On a valid payload, `deserialize` succeeds and populates exactly
the five content fields. -/
lemma deserialize_ok (p : Product) (data : Payload) (h : validPayload data) :
    ∃ n d q b c cat,
      data.lookup "name" = some (.str n) ∧
      data.lookup "description" = some (.str d) ∧
      (data.lookup "price").bind priceVal = some q ∧
      data.lookup "available" = some (.bool b) ∧
      data.lookup "category" = some (.str c) ∧
      Category.fromName c = some cat ∧
      Product.deserialize p data =
        .ok { p with name := n, description := d, price := q,
                     available := b, category := cat } := by
  obtain ⟨⟨n, hn, hne⟩, ⟨d, hd⟩, ⟨pv, q, hpv, hq, hq0⟩, ⟨b, hb⟩, ⟨c, cat, hc, hcat⟩⟩ := h
  refine ⟨n, d, q, b, c, cat, hn, hd, ?_, hb, hc, hcat, ?_⟩
  · rw [hpv]; exact hq
  · simp [Product.deserialize, hn, hd, hpv, hb, hc, hne, hq, hcat, not_lt.mpr hq0]

/-- C7: for every payload satisfying the validation rules,
`serialize(deserialize(P))` reproduces every field of P except `id`:
the name, description, available and category fields come back exactly,
the price field comes back in the decimal-preserving representation
denoting the same decimal value, and the deserialized entity's id is
untouched (still unset — only `create` assigns it), serialized as
null. -/
theorem serialize_deserialize_round_trip (data : Payload) (h : validPayload data) :
    ∃ prod, Product.deserialize {} data = .ok prod ∧
      prod.id = none ∧
      prod.serialize.lookup "id" = some .null ∧
      prod.serialize.lookup "name" = data.lookup "name" ∧
      prod.serialize.lookup "description" = data.lookup "description" ∧
      prod.serialize.lookup "available" = data.lookup "available" ∧
      prod.serialize.lookup "category" = data.lookup "category" ∧
      (prod.serialize.lookup "price").bind priceVal =
        (data.lookup "price").bind priceVal := by
  obtain ⟨n, d, q, b, c, cat, hn, hd, hq, hb, hc, hcat, hok⟩ :=
    deserialize_ok {} data h
  refine ⟨_, hok, rfl, rfl, ?_, ?_, ?_, ?_, ?_⟩
  · rw [hn]; rfl
  · rw [hd]; rfl
  · rw [hb]; rfl
  · rw [hc]
    show some (JsonVal.str cat.name) = some (.str c)
    rw [Category.name_fromName hcat]
  · rw [hq]; rfl

/-- `samplePayload` satisfies the validation rules. -/
lemma samplePayload_valid : validPayload samplePayload :=
  ⟨⟨"Fedora", rfl, by decide⟩, ⟨"A red hat", rfl⟩,
   ⟨.num 12, 12, rfl, rfl, by norm_num⟩, ⟨true, rfl⟩,
   ⟨"CLOTHS", .CLOTHS, rfl, rfl⟩⟩

/-- Witness for C7 at the concrete payload. -/
theorem serialize_deserialize_round_trip_witness :
    ∃ prod, Product.deserialize {} samplePayload = .ok prod ∧
      prod.id = none ∧
      prod.serialize.lookup "id" = some .null ∧
      prod.serialize.lookup "name" = samplePayload.lookup "name" ∧
      prod.serialize.lookup "description" = samplePayload.lookup "description" ∧
      prod.serialize.lookup "available" = samplePayload.lookup "available" ∧
      prod.serialize.lookup "category" = samplePayload.lookup "category" ∧
      (prod.serialize.lookup "price").bind priceVal =
        (samplePayload.lookup "price").bind priceVal :=
  serialize_deserialize_round_trip samplePayload samplePayload_valid

/-- C8: a POST /products with the JSON content type and a valid payload
answers 201; the body is the serialized created product, whose id field
carries the newly assigned id, and the `Location` header is the read
URL `/products/{id}` of the new resource. -/
theorem create_products_spec (db : DB) (data : Payload) (h : validPayload data) :
    ∃ prod, Product.deserialize {} data = .ok prod ∧
      (prod.create db).1.id = some db.nextId ∧
      (prod.create db).1.serialize.lookup "id" = some (.num db.nextId) ∧
      create_products db (some "application/json") data =
        .ok { status := 201,
              body := .obj (prod.create db).1.serialize,
              location := some ("/products/" ++ toString db.nextId),
              db := (prod.create db).2 } := by
  obtain ⟨n, d, q, b, c, cat, hn, hd, hq, hb, hc, hcat, hok⟩ :=
    deserialize_ok {} data h
  refine ⟨_, hok, rfl, rfl, ?_⟩
  simp [create_products, check_content_type, hok, Product.create, idText]

/-- Witness for C8 at the concrete store and payload. -/
theorem create_products_spec_witness :
    ∃ prod, Product.deserialize {} samplePayload = .ok prod ∧
      (prod.create sampleDB).1.id = some sampleDB.nextId ∧
      (prod.create sampleDB).1.serialize.lookup "id" =
        some (.num sampleDB.nextId) ∧
      create_products sampleDB (some "application/json") samplePayload =
        .ok { status := 201,
              body := .obj (prod.create sampleDB).1.serialize,
              location := some ("/products/" ++ toString sampleDB.nextId),
              db := (prod.create sampleDB).2 } :=
  create_products_spec sampleDB samplePayload samplePayload_valid

/-- `find` only returns a product whose id is the requested one. -/
lemma DB.find_id {db : DB} {i : Nat} {p : Product}
    (h : db.find i = some p) : p.id = some i := by
  unfold DB.find at h
  have hp := List.find?_some h
  simpa using hp

/-- `deserialize` never touches the entity's id. -/
lemma Product.deserialize_ok_id {p p2 : Product} {data : Payload}
    (h : p.deserialize data = .ok p2) : p2.id = p.id := by
  unfold Product.deserialize at h
  repeat' split at h
  all_goals first
    | exact Except.noConfusion h
    | (injection h with h2; rw [← h2])

/-- C10: a PUT on an existing product deserializes the payload into the
product found for the path id: the updated entity and the serialized
200 response keep that product's id, whatever id value the request
payload may carry (the quantification over `data` includes payloads
with any `id` entry). -/
theorem update_preserves_identity (db : DB) (product_id : Nat) (data : Payload)
    (p p2 : Product) (hfind : db.find product_id = some p)
    (hdes : p.deserialize data = .ok p2) (hpos : product_id ≠ 0) :
    p2.id = some product_id ∧
    p2.serialize.lookup "id" = some (.num product_id) ∧
    update_products db (some "application/json") product_id data =
      .ok { status := 200, body := .obj p2.serialize,
            db := (p2.update db).2 } := by
  have hid : p2.id = some product_id :=
    (Product.deserialize_ok_id hdes).trans (DB.find_id hfind)
  have hcond : ¬(p2.id = none ∨ p2.id = some 0) := by
    rw [hid]
    rintro (h | h) <;> simp_all
  have hupd : p2.update db =
      (.ok (), { db with
        products := db.products.map (fun q => if q.id = p2.id then p2 else q) }) := by
    unfold Product.update
    rw [if_neg hcond]
  refine ⟨hid, ?_, ?_⟩
  · unfold Product.serialize
    rw [hid]
    rfl
  · simp [update_products, check_content_type, hfind, hdes, hupd]

/-- Witness for C10: updating product 1 with a payload whose id entry
says 99 still answers with id 1. -/
theorem update_preserves_identity_witness :
    trilby.id = some 1 ∧
    trilby.serialize.lookup "id" = some (.num 1) ∧
    update_products sampleDB (some "application/json") 1 renamePayload =
      .ok { status := 200, body := .obj trilby.serialize,
            db := (trilby.update sampleDB).2 } :=
  update_preserves_identity sampleDB 1 renamePayload hat trilby
    (by decide) rfl (by decide)
